import Mathlib

/-!
Verification development for the langgraph-nodes music-store assistant.

The Python source under `app/` is shallowly embedded: each graph node becomes a
pure Lean function from the aggregate state to an updated state plus the next
node it routes to (`Command(update=…, goto=…)` in the source).  External
collaborators (the Chinook database, the Twilio verification service, the
payment gateway, the language model) are passed in as explicit parameters, as
the spec treats them as opaque collaborators with narrow contracts.  Python
`dict.get` defaults are mirrored with `Option`/default fields, Python
truthiness of optional integers with `pyTruthy`, and the regular expressions
used by the source are compiled by hand into character-list scanners.
-/

set_option linter.unusedVariables false

namespace MusicStore

/-! ## Basic string helpers (Python semantics, over `List Char`) -/

/-- Characters removed by Python `str.strip()` (also the `\s` class of `re`
for the ASCII inputs this program handles). -/
def isPySpaceChar (c : Char) : Bool :=
  c = ' ' || c = '\t' || c = '\n' || c = '\r' || c = '\x0b' || c = '\x0c'

/-- Python `str.strip()`. -/
def pyStripList (cs : List Char) : List Char :=
  ((cs.dropWhile isPySpaceChar).reverse.dropWhile isPySpaceChar).reverse

/-- Python `str.strip()` on `String`. -/
def pyStrip (s : String) : String :=
  String.mk (pyStripList s.data)

/-- Numeric value of a digit run (`int(...)` on a digits-only string). -/
def natOfDigitsAux : List Char → Nat → Nat
  | [], acc => acc
  | c :: rest, acc => natOfDigitsAux rest (acc * 10 + (c.toNat - '0'.toNat))

def natOfDigits (cs : List Char) : Nat := natOfDigitsAux cs 0

/-- The `\w` word-character class of `re` (ASCII fragment). -/
def isWordChar (c : Char) : Bool := c.isAlpha || c.isDigit || c = '_'

/-- A `\b` word boundary holds before a word character iff the previous
character (if any) is not a word character. -/
def boundaryBefore : Option Char → Bool
  | none => true
  | some p => !isWordChar p

/-- A `\b` word boundary holds after a word character iff the next character
(if any) is not a word character. -/
def boundaryAfterOk : List Char → Bool
  | [] => true
  | a :: _ => !isWordChar a

/-- Case-insensitive literal match; returns the remaining input on success. -/
def matchLitCI : List Char → List Char → Option (List Char)
  | [], rest => some rest
  | _ :: _, [] => none
  | l :: ls, c :: cs => if c.toLower = l.toLower then matchLitCI ls cs else none

/-- Match `(\d+)\b` at the first digit run of the input: take the maximal
digit run and require a word boundary after it. -/
def digitsWithBoundary (cs : List Char) : Option Nat :=
  let run := cs.takeWhile Char.isDigit
  let after := cs.dropWhile Char.isDigit
  if run.isEmpty then none
  else if boundaryAfterOk after then some (natOfDigits run) else none

/-- `re.search(r"\b(\d+)\b", text)`: leftmost digit run with word boundaries
on both sides.  Each position is tried in order; a position inside a word run
fails the leading boundary, so trying every suffix is equivalent to the
regex engine advancing its start position. -/
def scanFirstInt : Option Char → List Char → Option Nat
  | _, [] => none
  | prev, c :: rest =>
    (if c.isDigit && boundaryBefore prev then
      digitsWithBoundary (c :: rest)
     else none).orElse (fun _ => scanFirstInt (some c) rest)

/-- Attempt `track\s*id\b\D*(\d+)\b` at the current position (the leading
`\b` is checked by the caller).  `\D*` cannot cross a digit, so the captured
group is always the first digit run after `id`. -/
def trackIdAt (cs : List Char) : Option Nat :=
  match matchLitCI "track".data cs with
  | none => none
  | some r1 =>
    match matchLitCI "id".data (r1.dropWhile isPySpaceChar) with
    | none => none
    | some r3 =>
      if boundaryAfterOk r3 then
        digitsWithBoundary (r3.dropWhile (fun c => !c.isDigit))
      else none

/-- `re.search(r"\btrack\s*id\b\D*(\d+)\b", text, re.IGNORECASE)`. -/
def scanTrackId : Option Char → List Char → Option Nat
  | _, [] => none
  | prev, c :: rest =>
    (if boundaryBefore prev then trackIdAt (c :: rest) else none).orElse
      (fun _ => scanTrackId (some c) rest)

/-- Attempt `id\b\D*(\d+)\b` at the current position. -/
def idNumAt (cs : List Char) : Option Nat :=
  match matchLitCI "id".data cs with
  | none => none
  | some r =>
    if boundaryAfterOk r then
      digitsWithBoundary (r.dropWhile (fun c => !c.isDigit))
    else none

/-- `re.search(r"\bid\b\D*(\d+)\b", text, re.IGNORECASE)`. -/
def scanIdNum : Option Char → List Char → Option Nat
  | _, [] => none
  | prev, c :: rest =>
    (if boundaryBefore prev then idNumAt (c :: rest) else none).orElse
      (fun _ => scanIdNum (some c) rest)

/-- Substring test used to decide whether an output message mentions a word. -/
def startsWithList : List Char → List Char → Bool
  | [], _ => true
  | _ :: _, [] => false
  | a :: as, b :: bs => a = b && startsWithList as bs

def containsSub (pat : List Char) : List Char → Bool
  | [] => startsWithList pat []
  | c :: rest => startsWithList pat (c :: rest) || containsSub pat rest

/-! ## Association lists (Python `dict` with string keys) -/

def alookup {α : Type} : List (String × α) → String → Option α
  | [], _ => none
  | (k, v) :: rest, key => if k = key then some v else alookup rest key

def aerase {α : Type} : List (String × α) → String → List (String × α)
  | [], _ => []
  | (k, v) :: rest, key =>
    if k = key then aerase rest key else (k, v) :: aerase rest key

/-! ## app/tools/payment_mock.py — `PaymentMock.charge` -/

/-- The result dict produced by `PaymentMock.charge`. -/
structure ChargeResult where
  status : String
  transaction_id : String
  reason : String
deriving DecidableEq

/-- Outcome of one `charge` call: the returned result, the new `_processed`
map, and whether the processing path (as opposed to the idempotency cache)
was taken. -/
structure ChargeOutcome where
  result : ChargeResult
  processed : List (String × ChargeResult)
  performedCharge : Bool
deriving DecidableEq

/-- `PaymentMock.charge(intent_id, amount, customer_id, items)`.

The mock's nondeterminism is passed in explicitly: `simulatedFailure` is the
outcome of `random.random() < self.failure_rate`, and `freshTxnId` the
`txn_…` identifier drawn from `uuid` on the success path.  `amount`,
`customer_id` and `items` are only logged by the source and do not influence
the result. -/
def PaymentMock.charge (processed : List (String × ChargeResult))
    (intent_id : String) (amount : Int) (customer_id : Int)
    (items : List (String × Int)) (simulatedFailure : Bool)
    (freshTxnId : String) : ChargeOutcome :=
  match alookup processed intent_id with
  | some r => ⟨r, processed, false⟩
  | none =>
    let result : ChargeResult :=
      if simulatedFailure then
        ⟨"failed", "", "Card declined (simulated failure)"⟩
      else
        ⟨"succeeded", freshTxnId, ""⟩
    ⟨result, (intent_id, result) :: processed, true⟩

/-! ## app/tools/twilio_mock.py — mock-mode verification store -/

/-- One entry of `TwilioService._verifications` (mock mode).  Entries created
by the real-API path carry no `code` key, hence the `Option`; the
`created_at` timestamp is never read and is omitted. -/
structure MockVerification where
  phone : String
  code : Option String
  status : String
deriving DecidableEq

/-- `TwilioService._send_code_mock(phone)`: the fresh verification id comes
from `uuid` and is passed in; the code is `"123456"` unless
`use_random_codes` is set, in which case the drawn `randomCode` is used. -/
def TwilioService.send_code_mock
    (verifications : List (String × MockVerification))
    (phone : String) (use_random_codes : Bool) (randomCode : String)
    (verification_id : String) :
    String × List (String × MockVerification) :=
  let code := if use_random_codes then randomCode else "123456"
  (verification_id,
    (verification_id, ⟨phone, some code, "pending"⟩) :: verifications)

/-- `TwilioService._check_code_mock(verification_id, code)`: compares the
stripped user code with the stored one and deletes the verification record on
success. -/
def TwilioService.check_code_mock
    (verifications : List (String × MockVerification))
    (verification_id code : String) :
    Bool × List (String × MockVerification) :=
  match alookup verifications verification_id with
  | none => (false, verifications)
  | some v =>
    match v.code with
    | none => (false, verifications)
    | some expected =>
      if pyStrip code = expected then
        (true, aerase verifications verification_id)
      else
        (false, verifications)

/-- `TwilioService.check_code(verification_id, code)` with `is_live = False`
(mock mode): an unknown id yields `False`, otherwise `_check_code_mock`
decides. -/
def TwilioService.check_code
    (verifications : List (String × MockVerification))
    (verification_id code : String) :
    Bool × List (String × MockVerification) :=
  match alookup verifications verification_id with
  | none => (false, verifications)
  | some _ => TwilioService.check_code_mock verifications verification_id code

/-- The verdicts of a sequence of `check_code` calls with the same
verification id, threading the store through. -/
def TwilioService.check_code_seq
    (verifications : List (String × MockVerification))
    (verification_id : String) : List String → List Bool
  | [] => []
  | c :: cs =>
    let r := TwilioService.check_code verifications verification_id c
    r.1 :: TwilioService.check_code_seq r.2 verification_id cs

/-! ## app/models/state.py — the aggregate state and its flow slices

`TypedDict(total=False)` slices are mirrored by structures whose field
defaults are the values `dict.get` would produce on a missing key.  The one
field read with two different defaults (`code_attempts_left`, default 3 in
`email_interrupt_enter_code` and 0 in `email_check_code`) and the one field
whose empty-string value is distinguishable from absence (`error`, default
`"verification failed"` in `email_failed`) are wrapped in `Option`. -/

structure ToolCall where
  name : String
  args : String
  id : String
deriving DecidableEq

inductive ChatMsg where
  | system (content : String)
  | human (content : String)
  | ai (content : String) (tool_calls : List ToolCall)
  | tool (content : String) (tool_call_id : String)
deriving DecidableEq

/-- A track row as returned by `_fetch_track_by_id` /
`find_track_by_title_artist`.  `UnitPrice` is held in cents: the Chinook
prices are exact cents and the engine only sums and displays them. -/
structure Track where
  TrackId : Nat
  TrackName : String
  UnitPrice : Nat
  ArtistName : String
  AlbumTitle : String
deriving DecidableEq

/-- One line of the rendered invoice message. -/
structure InvoiceLine where
  name : String
  qty : Nat
  unit_price : Nat
deriving DecidableEq

/-- One item of `PaymentState.items`. -/
structure PayItem where
  track_id : Nat
  name : String
  qty : Nat
  unit_price : Nat
deriving DecidableEq

/-- One entry of `assistant_messages` (the outbox). -/
inductive OutMsg where
  | text (s : String)
  | embed (provider video_id url html : String)
  | invoice (invoice_id : Nat) (transaction_id : String) (total : Nat)
      (lines : List InvoiceLine)
deriving DecidableEq

structure EmailFlow where
  status : String := ""
  current_email : String := ""
  phone : String := ""
  verification_id : String := ""
  code_attempts_left : Option Int := none
  last_code_entered : String := ""
  proposed_email : String := ""
  error : Option String := none
deriving DecidableEq

structure GeniusBest where
  title : String := ""
  artist : String := ""
deriving DecidableEq

structure YouTubeInfo where
  video_id : String := ""
  url : String := ""
deriving DecidableEq

structure LyricsFlow where
  status : String := ""
  lyrics_query : String := ""
  genius_best : GeniusBest := {}
  catalogue_track : Option Track := none
  already_owned : Bool := false
  youtube : YouTubeInfo := {}
deriving DecidableEq

structure PaymentState where
  status : String := ""
  payment_intent_id : String := ""
  items : List PayItem := []
  total : Nat := 0
  transaction_id : String := ""
  invoice_id : Nat := 0
  error : String := ""
deriving DecidableEq

structure PurchaseFlow where
  status : String := ""
  query : String := ""
  parsed_track_id : Option Nat := none
  numeric_ref : Option Nat := none
  candidate_track_ids : List Nat := []
  selected_track_id : Option Nat := none
  error : String := ""
deriving DecidableEq

structure AppState where
  messages : List ChatMsg := []
  user_id : Nat := 1
  last_user_msg : String := ""
  route : String := "normal"
  verified : Bool := false
  email_flow : EmailFlow := {}
  lyrics_flow : LyricsFlow := {}
  payment : PaymentState := {}
  purchase_flow : PurchaseFlow := {}
  last_track_ids : List Nat := []
  assistant_messages : List OutMsg := []
deriving DecidableEq

/-- `get_default_email_flow()`. -/
def get_default_email_flow : EmailFlow :=
  { status := "idle", current_email := "", phone := "", verification_id := "",
    code_attempts_left := some 3, last_code_entered := "",
    proposed_email := "", error := some "" }

/-- `get_default_lyrics_flow()`. -/
def get_default_lyrics_flow : LyricsFlow :=
  { status := "idle", lyrics_query := "", genius_best := {},
    catalogue_track := none, youtube := {} }

/-- `get_default_payment()`. -/
def get_default_payment : PaymentState :=
  { status := "draft", payment_intent_id := "", items := [], total := 0,
    transaction_id := "", invoice_id := 0, error := "" }

/-- `get_default_purchase_flow()`. -/
def get_default_purchase_flow : PurchaseFlow :=
  { status := "idle", query := "", parsed_track_id := none,
    numeric_ref := none, candidate_track_ids := [],
    selected_track_id := none, error := "" }

/-- Python truthiness of an optional integer (`if parsed_track_id:`). -/
def pyTruthy : Option Nat → Bool
  | none => false
  | some n => n != 0

/-- The typed data-access interface to the catalogue database plus the
ownership check, standing in for `_fetch_track_by_id`,
`_search_tracks_by_title` (already truncated to its LIMIT) and
`check_track_already_purchased`. -/
structure Catalogue where
  fetchTrack : Nat → Option Track
  owned : Nat → Nat → Bool
  searchTracksByTitle : String → List Track

/-- `add_assistant_message(state, text)`. -/
def addText (s : AppState) (t : String) : List OutMsg :=
  s.assistant_messages ++ [OutMsg.text t]

/-! ## app/graphs/purchase_subgraph.py — message parsing -/

/-- `_parse_track_id(text)`: a digits-only (stripped) message is the track
id; otherwise search for `track id <n>`, then for `id <n>`. -/
def parse_track_id (text : String) : Option Nat :=
  if text = "" then none
  else
    let s := pyStripList text.data
    if !s.isEmpty && s.all Char.isDigit then some (natOfDigits s)
    else
      match scanTrackId none text.data with
      | some n => some n
      | none => scanIdNum none text.data

/-- `_parse_first_int(text)`. -/
def parse_first_int (text : String) : Option Nat :=
  if text = "" then none else scanFirstInt none text.data

/-! ## app/graphs/purchase_subgraph.py — nodes

Each node returns the updated state together with the node it `goto`es;
interrupt nodes additionally take the resume value supplied by the user
(the empty string standing for a falsy/declined resume). -/

inductive PGoto where
  | resolveTrack
  | askWhich
  | freeText
  | chooseTrack
  | preparePayment
  | paymentFlow
  | done
deriving DecidableEq

/-- The "already own" message emitted at the ownership short-circuits. -/
def already_own_msg (track : Track) : String :=
  "You already own \"" ++ track.TrackName ++ "\" by " ++ track.ArtistName ++ ". 🎵"

/-- Node A0 `purchase_init`. -/
def purchase_init (s : AppState) : AppState :=
  let last_msg := s.last_user_msg
  { s with purchase_flow :=
      { status := "resolving", query := last_msg,
        parsed_track_id := parse_track_id last_msg,
        numeric_ref := parse_first_int last_msg,
        candidate_track_ids := [], selected_track_id := none, error := "" } }

/-- Node A1 `purchase_resolve_track`. -/
def purchase_resolve_track (db : Catalogue) (s : AppState) : AppState × PGoto :=
  let pf := s.purchase_flow
  let user_id := s.user_id
  let parsed := pf.parsed_track_id
  let numeric := pf.numeric_ref
  if pyTruthy parsed then
    match db.fetchTrack (parsed.getD 0) with
    | none =>
      let m := "I couldn’t find a track with Track ID " ++ toString (parsed.getD 0) ++
        ". Please share a valid Track ID or a song title to search."
      ({ s with assistant_messages := addText s m }, .done)
    | some track =>
      if db.owned user_id track.TrackId then
        let pf2 := { pf with
          status := "done",
          selected_track_id := some track.TrackId }
        ({ s with
            assistant_messages := addText s (already_own_msg track),
            last_track_ids := [track.TrackId],
            purchase_flow := pf2 }, .done)
      else
        ({ s with last_track_ids := [track.TrackId],
                  purchase_flow :=
                    { pf with selected_track_id := some track.TrackId } },
         .preparePayment)
  else
    -- No explicit Track ID: try state context (last_track_ids, lyrics_flow.catalogue_track)
    let ltids0 := s.last_track_ids
    let last_track_ids :=
      match s.lyrics_flow.catalogue_track with
      | some t => if t.TrackId != 0 && ltids0.isEmpty then [t.TrackId] else ltids0
      | none => ltids0
    if last_track_ids.length == 1 then
      let tid := last_track_ids.getD 0 0
      match db.fetchTrack tid with
      | some track =>
        if db.owned user_id track.TrackId then
          let pf2 := { pf with
            status := "done",
            selected_track_id := some track.TrackId }
          ({ s with
              assistant_messages := addText s (already_own_msg track),
              purchase_flow := pf2 }, .done)
        else
          ({ s with purchase_flow :=
              { pf with selected_track_id := some track.TrackId } },
           .preparePayment)
      | none =>
        -- track not found: falls through past both context branches
        (s, .askWhich)
    else if last_track_ids.length > 1 then
      match numeric with
      | some n =>
        if n ∈ last_track_ids then
          ({ s with purchase_flow := { pf with parsed_track_id := some n } },
           .resolveTrack)
        else if 1 ≤ n && n ≤ last_track_ids.length then
          let chosen := last_track_ids.getD (n - 1) 0
          let pf2 := { pf with selected_track_id := some chosen }
          ({ s with
              purchase_flow := pf2,
              last_track_ids := [chosen] }, .preparePayment)
        else
          ({ s with purchase_flow :=
              { pf with candidate_track_ids := last_track_ids } },
           .chooseTrack)
      | none =>
        ({ s with purchase_flow :=
            { pf with candidate_track_ids := last_track_ids } },
         .chooseTrack)
    else
      (s, .askWhich)

/-- Node A2 `purchase_interrupt_ask_which`, applied to the resume value. -/
def purchase_interrupt_ask_which (answer : String) (s : AppState) :
    AppState × PGoto :=
  if answer = "" then
    ({ s with assistant_messages := addText s "No problem — cancelled." }, .done)
  else
    let pf := s.purchase_flow
    let pf2 := { pf with
      query := answer,
      parsed_track_id := parse_track_id answer,
      numeric_ref := parse_first_int answer }
    ({ s with purchase_flow := pf2 }, .freeText)

/-- Node A3 `purchase_resolve_from_free_text`. -/
def purchase_resolve_from_free_text (db : Catalogue) (s : AppState) :
    AppState × PGoto :=
  let pf := s.purchase_flow
  let user_id := s.user_id
  let q := pyStrip pf.query
  let numeric := pf.numeric_ref
  let last_track_ids := s.last_track_ids
  -- the remainder of the node, parameterized by the locally rebound parsed id
  let rest := fun (parsed : Option Nat) =>
    if pyTruthy parsed then
      match db.fetchTrack (parsed.getD 0) with
      | none =>
        let m := "I couldn’t find Track ID " ++ toString (parsed.getD 0) ++
          ". Try another ID or a title."
        ({ s with assistant_messages := addText s m }, PGoto.done)
      | some track =>
        if db.owned user_id track.TrackId then
          ({ s with assistant_messages := addText s (already_own_msg track),
                    last_track_ids := [track.TrackId] }, PGoto.done)
        else
          let pf2 := { pf with selected_track_id := some track.TrackId }
          ({ s with
              purchase_flow := pf2,
              last_track_ids := [track.TrackId] }, PGoto.preparePayment)
    else
      match db.searchTracksByTitle q with
      | [] =>
        let m := "I couldn’t find any tracks matching \"" ++ q ++
          "\". Try a different title or a Track ID."
        ({ s with assistant_messages := addText s m }, PGoto.done)
      | [track] =>
        if db.owned user_id track.TrackId then
          ({ s with assistant_messages := addText s (already_own_msg track),
                    last_track_ids := [track.TrackId] }, PGoto.done)
        else
          let pf2 := { pf with selected_track_id := some track.TrackId }
          ({ s with
              purchase_flow := pf2,
              last_track_ids := [track.TrackId] }, PGoto.preparePayment)
      | results =>
        ({ s with purchase_flow :=
            { pf with candidate_track_ids := results.map Track.TrackId } },
         PGoto.chooseTrack)
  -- ordinal selection against last_track_ids context
  if pf.parsed_track_id = none && numeric.isSome && !last_track_ids.isEmpty then
    let n := numeric.getD 0
    if n ∈ last_track_ids then rest (some n)
    else if 1 ≤ n && n ≤ last_track_ids.length then
      let chosen := last_track_ids.getD (n - 1) 0
      let pf2 := { pf with selected_track_id := some chosen }
      ({ s with
          purchase_flow := pf2,
          last_track_ids := [chosen] }, .preparePayment)
    else rest pf.parsed_track_id
  else rest pf.parsed_track_id

/-- Node A4 `purchase_interrupt_choose_track`, applied to the resume value.
The display-only `choices` payload (track labels with prices) is not
modelled; the selection string is parsed back with `_parse_track_id`. -/
def purchase_interrupt_choose_track (db : Catalogue) (selection : String)
    (s : AppState) : AppState × PGoto :=
  let pf := s.purchase_flow
  let candidate_ids := pf.candidate_track_ids
  let user_id := s.user_id
  let tracks := (candidate_ids.take 10).filterMap db.fetchTrack
  if tracks.isEmpty then
    let m := "Sorry — I lost track of the options. Try again."
    ({ s with assistant_messages := addText s m }, .done)
  else if selection = "" then
    ({ s with assistant_messages := addText s "No problem — cancelled." }, .done)
  else
    let chosen_track_id := parse_track_id selection
    if !pyTruthy chosen_track_id then
      let m := "Sorry — I couldn’t understand that selection."
      ({ s with assistant_messages := addText s m }, .done)
    else
      match db.fetchTrack (chosen_track_id.getD 0) with
      | none =>
        let m := "Sorry — that track is no longer available."
        ({ s with assistant_messages := addText s m }, .done)
      | some track =>
        -- Prevent re-purchase
        if db.owned user_id track.TrackId then
          ({ s with assistant_messages := addText s (already_own_msg track),
                    last_track_ids := [track.TrackId] }, .done)
        else
          let pf2 := { pf with selected_track_id := some track.TrackId }
          ({ s with
              purchase_flow := pf2,
              last_track_ids := [track.TrackId] }, .preparePayment)

/-- Node A5 `purchase_prepare_payment`. -/
def purchase_prepare_payment (db : Catalogue) (s : AppState) :
    AppState × PGoto :=
  let pf := s.purchase_flow
  let track_id := pf.selected_track_id
  if !pyTruthy track_id then
    let m := "Sorry — I couldn’t determine which track to buy."
    ({ s with assistant_messages := addText s m }, .done)
  else
    match db.fetchTrack (track_id.getD 0) with
    | none =>
      let m := "Sorry — that track wasn’t found."
      ({ s with assistant_messages := addText s m }, .done)
    | some track =>
      ({ s with payment :=
          { status := "draft", payment_intent_id := "",
            items := [⟨track.TrackId,
              track.TrackName ++ " — " ++ track.ArtistName, 1,
              track.UnitPrice⟩],
            total := track.UnitPrice, transaction_id := "", invoice_id := 0,
            error := "" } }, .paymentFlow)

/-- Node A6 `purchase_done`. -/
def purchase_done (s : AppState) : AppState :=
  { s with purchase_flow := { s.purchase_flow with status := "done" } }

/-- Drive `purchase_resolve_track` through its self-`goto` (taken when a
context number matches a shown track id) until it leaves the node. -/
def run_purchase_resolve (db : Catalogue) : Nat → AppState → AppState × PGoto
  | 0, s => (s, .resolveTrack)
  | Nat.succ fuel, s =>
    let r := purchase_resolve_track db s
    if r.2 = PGoto.resolveTrack then run_purchase_resolve db fuel r.1 else r

/-- Run the purchase flow entry (`purchase_init` then
`purchase_resolve_track`) on a user message. -/
def runPurchaseOn (db : Catalogue) (msg : String) (s : AppState) :
    AppState × PGoto :=
  run_purchase_resolve db 5 (purchase_init { s with last_user_msg := msg })

/-! ## app/graphs/email_subgraph.py — email update with phone verification -/

inductive EGoto where
  | sendCode
  | cancel
  | checkCode
  | interruptNewEmail
  | interruptEnterCode
  | failedNode
  | updateDb
  | doneNode
deriving DecidableEq

/-- Node A3 `email_interrupt_enter_code`, applied to the resume value.  The
interrupt payload (which adds an `Incorrect code. n attempt(s) left.` context
line on retries, i.e. when `code_attempts_left` read with default 3 is below
3) is display-only; the state update stores the entered code. -/
def email_interrupt_enter_code (code : String) (s : AppState) :
    AppState × EGoto :=
  ({ s with email_flow := { s.email_flow with last_code_entered := code } },
   .checkCode)

/-- Node A4 `email_check_code`.  `is_valid` is the verdict of
`twilio.check_code(verification_id, last_code_entered)`. -/
def email_check_code (is_valid : Bool) (s : AppState) : AppState × EGoto :=
  let email_flow := s.email_flow
  let attempts_left : Int := email_flow.code_attempts_left.getD 0
  if is_valid then
    let m := "Code verified! What\x27s your new email address?"
    ({ s with
        email_flow := { email_flow with status := "await_new_email" },
        assistant_messages := addText s m }, .interruptNewEmail)
  else
    let new_attempts := attempts_left - 1
    if new_attempts > 0 then
      let m := "Incorrect code. " ++ toString new_attempts ++ " attempt(s) left."
      let ef2 := { email_flow with code_attempts_left := some new_attempts }
      ({ s with
          email_flow := ef2,
          assistant_messages := addText s m }, .interruptEnterCode)
    else
      let ef2 := { email_flow with
        code_attempts_left := some 0,
        error := some "Too many failed attempts" }
      ({ s with email_flow := ef2 }, .failedNode)

/-- Node A5 `email_interrupt_new_email`, applied to the resume value. -/
def email_interrupt_new_email (new_email : String) (s : AppState) :
    AppState × EGoto :=
  ({ s with email_flow := { s.email_flow with proposed_email := new_email } },
   .updateDb)

/-- Local-part character class `[a-zA-Z0-9._%+-]` of the email regex. -/
def isEmailLocalChar (c : Char) : Bool :=
  c.isAlpha || c.isDigit || c = '.' || c = '_' || c = '%' || c = '+' || c = '-'

/-- Domain character class `[a-zA-Z0-9.-]` of the email regex. -/
def isEmailDomainChar (c : Char) : Bool :=
  c.isAlpha || c.isDigit || c = '.' || c = '-'

/-- Split at the first occurrence of a character. -/
def splitAtChar (ch : Char) : List Char → Option (List Char × List Char)
  | [] => none
  | c :: rest =>
    if c = ch then some ([], rest)
    else (splitAtChar ch rest).map (fun p => (c :: p.1, p.2))

/-- Split at the last occurrence of a character. -/
def splitAtLastChar (ch : Char) (cs : List Char) :
    Option (List Char × List Char) :=
  match splitAtChar ch cs.reverse with
  | none => none
  | some p => some (p.2.reverse, p.1.reverse)

/-- The pattern `^[a-zA-Z0-9._%+-]+@[a-zA-Z0-9.-]+\.[a-zA-Z]{2,}$` matched
against the whole input.  The local part runs to the first `@` (its class
excludes `@`); since the suffix class excludes `.`, the separating dot of a
successful backtracking match is necessarily the last dot after the `@`. -/
def email_regex_core (cs : List Char) : Bool :=
  match splitAtChar '@' cs with
  | none => false
  | some lp =>
    (!lp.1.isEmpty && lp.1.all isEmailLocalChar) &&
    (match splitAtLastChar '.' lp.2 with
     | none => false
     | some dt =>
       (!dt.1.isEmpty && dt.1.all isEmailDomainChar) &&
       (decide (dt.2.length ≥ 2) && dt.2.all Char.isAlpha))

/-- `re.match(email_pattern, proposed_email)` as a Boolean: Python's `$`
also accepts a single trailing newline. -/
def email_matches (s : String) : Bool :=
  email_regex_core s.data ||
    (s.data.getLast? == some '\n' && email_regex_core s.data.dropLast)

/-- The re-prompt text for an invalid proposed email. -/
def invalid_email_msg (proposed_email : String) : String :=
  "\x27" ++ proposed_email ++
    "\x27 doesn\x27t look like a valid email address. Please try again."

/-- Node A6 `email_update_db`.  `db_update` is the outcome of
`update_customer_email(engine, user_id, proposed_email)`; the third
component records whether that call was made at all. -/
def email_update_db (db_update : Except String Unit) (s : AppState) :
    AppState × EGoto × Bool :=
  let email_flow := s.email_flow
  let proposed_email := email_flow.proposed_email
  if !email_matches proposed_email then
    let m := invalid_email_msg proposed_email
    ({ s with assistant_messages := addText s m }, .interruptNewEmail, false)
  else
    match db_update with
    | Except.error e =>
      let ef2 := { email_flow with status := "failed", error := some e }
      let m := "Sorry, there was an error updating your email: " ++ e
      ({ s with
          email_flow := ef2,
          assistant_messages := addText s m }, .doneNode, true)
    | Except.ok _ =>
      let ef2 := { email_flow with status := "done" }
      let m := "Done! Your email has been updated to " ++ proposed_email ++ "."
      ({ s with
          email_flow := ef2,
          assistant_messages := addText s m }, .doneNode, true)

/-- Node A8 `email_failed`. -/
def email_failed (s : AppState) : AppState :=
  let error := s.email_flow.error.getD "verification failed"
  let m := "Sorry, the email update could not be completed: " ++ error ++
    ". Please try again later or contact support."
  { s with
      email_flow := { s.email_flow with status := "failed" },
      assistant_messages := addText s m }

/-! ## app/graphs/payment_subgraph.py — charge, invoice commit, receipt -/

inductive PayGoto where
  | executeCharge
  | commitInvoice
  | renderReceipt
  | cancelNode
  | failedNode
  | doneNode
deriving DecidableEq

/-- Node P2 `payment_execute_charge`.  `charge_result` is the dict returned
by `payment_service.charge(intent_id, total, user_id, items)`. -/
def payment_execute_charge (charge_result : ChargeResult) (s : AppState) :
    AppState × PayGoto :=
  let payment := s.payment
  if charge_result.status = "succeeded" then
    let p2 := { payment with
      status := "succeeded",
      transaction_id := charge_result.transaction_id }
    ({ s with payment := p2 }, .commitInvoice)
  else
    let p2 := { payment with
      status := "failed",
      error := charge_result.reason }
    ({ s with payment := p2 }, .failedNode)

/-- Node P3 `payment_commit_invoice`.  `invoice_result` is the outcome of
`create_invoice_for_track` on the first item: on an exception the source
logs a warning and returns an empty update, leaving the state untouched. -/
def payment_commit_invoice (invoice_result : Except String Nat)
    (s : AppState) : AppState :=
  match s.payment.items with
  | [] => s
  | _ :: _ =>
    match invoice_result with
    | Except.ok invoice_id =>
      { s with payment := { s.payment with invoice_id := invoice_id } }
    | Except.error _ => s

/-- Node P4 `payment_render_receipt`. -/
def payment_render_receipt (s : AppState) : AppState :=
  let payment := s.payment
  let lines := payment.items.map (fun it => InvoiceLine.mk it.name it.qty it.unit_price)
  { s with assistant_messages := s.assistant_messages ++
      [OutMsg.invoice payment.invoice_id payment.transaction_id payment.total lines,
       OutMsg.text "Purchase complete! Thank you for your order."] }

/-- Node P6 `payment_failed`. -/
def payment_failed (s : AppState) : AppState :=
  let error := s.payment.error
  let m := "Sorry, the payment could not be processed: " ++ error ++
    ". Please try again."
  { s with assistant_messages := addText s m }

/-- Whether an outbox entry tells the user about contacting support — the
user-visible flag the spec requires for a partial failure. -/
def mentionsSupport : OutMsg → Bool
  | OutMsg.text t => containsSub "support".data t.data
  | _ => false

/-! ## app/graphs/lyrics_subgraph.py — player rendering and the offer -/

inductive LGoto where
  | buyConfirm
  | requestConfirm
  | doneNode
deriving DecidableEq

/-- `YouTubeService.get_embed_html(video_id, autoplay)`. -/
def get_embed_html (video_id : String) (autoplay : Bool) : String :=
  "<iframe width=\"560\" height=\"315\" src=\"https://www.youtube.com/embed/" ++
  video_id ++ "?autoplay=" ++ (if autoplay then "1" else "0") ++
  "\" frameborder=\"0\" allow=\"accelerometer; autoplay; clipboard-write; " ++
  "encrypted-media; gyroscope; picture-in-picture\" allowfullscreen></iframe>"

/-- Node B5 `lyrics_render_player_and_offer`. -/
def lyrics_render_player_and_offer (s : AppState) : AppState × LGoto :=
  let lyrics_flow := s.lyrics_flow
  let youtube_info := lyrics_flow.youtube
  let catalogue_track := lyrics_flow.catalogue_track
  let already_owned := lyrics_flow.already_owned
  let video_id := youtube_info.video_id
  let embed_html := get_embed_html video_id true
  let messages := s.assistant_messages ++
    [OutMsg.embed "youtube" video_id youtube_info.url embed_html]
  if already_owned then
    let closing := "Enjoy your music! Let me know if you need anything else."
    ({ s with
        lyrics_flow := { lyrics_flow with status := "done" },
        assistant_messages := messages ++ [OutMsg.text closing] }, .doneNode)
  else if catalogue_track.isSome then
    ({ s with
        lyrics_flow := { lyrics_flow with status := "await_buy_or_request" },
        assistant_messages := messages }, .buyConfirm)
  else
    ({ s with
        lyrics_flow := { lyrics_flow with status := "await_buy_or_request" },
        assistant_messages := messages }, .requestConfirm)

/-- Node B9 `lyrics_done`. -/
def lyrics_done (s : AppState) : AppState :=
  { s with lyrics_flow := { s.lyrics_flow with status := "done" } }

/-! ## app/graphs/app_graph.py — turn ingestion and the normal tool loop -/

/-- Content of the last `HumanMessage` in the history. -/
def lastHuman : List ChatMsg → Option String
  | [] => none
  | m :: rest =>
    match lastHuman rest with
    | some t => some t
    | none =>
      match m with
      | ChatMsg.human c => some c
      | _ => none

/-- The terminal-status set used by `ingest_user_message` and
`route_intent`: `("done", "cancelled", "failed")`. -/
def isTerminalStatus (st : String) : Bool :=
  st = "done" || st = "cancelled" || st = "failed"

/-- Node 1 `ingest_user_message`: records the last user message, clears the
outbox for the new turn, and resets the email and purchase slices to an
empty dict when their status is terminal. -/
def ingest_user_message (s : AppState) : AppState :=
  let last_user_msg := (lastHuman s.messages).getD ""
  let s1 := { s with
    last_user_msg := last_user_msg,
    assistant_messages := [] }
  let s2 := if isTerminalStatus s.email_flow.status then
      { s1 with email_flow := {} } else s1
  if isTerminalStatus s.purchase_flow.status then
    { s2 with purchase_flow := {} } else s2

/-! ## LLM tool-calling loops

The classifier/agent model is an opaque collaborator: `wt` is
`model.bind_tools(tools).invoke`, `plain` is the tool-free `model.invoke`,
and `et` executes one tool call, returning `none` for an unknown tool name
(which the source silently skips). -/

structure LMResponse where
  content : String
  tool_calls : List ToolCall
deriving DecidableEq

/-- Append a model response to the running message list. -/
def aiOfResponse (r : LMResponse) : ChatMsg := ChatMsg.ai r.content r.tool_calls

/-- Execute the tool calls of a response into `ToolMessage`s. -/
def run_tool_calls (et : ToolCall → Option String) (tcs : List ToolCall) :
    List ChatMsg :=
  tcs.filterMap (fun tc => (et tc).map (fun r => ChatMsg.tool r tc.id))

/-- The `for iteration in range(max_iterations)` loop of `music_agent`
(app/agents/music.py): `remaining` counts the iterations still allowed after
the current one (so the source's `max_iterations = 5` enters with
`remaining = 4`).  Returns the last response, the final message list, and
the number of tool-bound model invocations made. -/
def music_agent_loop (wt : List ChatMsg → LMResponse)
    (et : ToolCall → Option String) :
    Nat → List ChatMsg → LMResponse × List ChatMsg × Nat
  | 0, msgs =>
    let response := wt msgs
    if response.tool_calls.isEmpty then (response, msgs, 1)
    else
      (response,
       msgs ++ [aiOfResponse response] ++ run_tool_calls et response.tool_calls,
       1)
  | Nat.succ k, msgs =>
    let response := wt msgs
    if response.tool_calls.isEmpty then (response, msgs, 1)
    else
      let msgs2 := msgs ++ [aiOfResponse response] ++
        run_tool_calls et response.tool_calls
      let r := music_agent_loop wt et k msgs2
      (r.1, r.2.1, r.2.2 + 1)

structure AgentOutcome where
  response : LMResponse
  full_messages : List ChatMsg
  tool_iterations : Nat
  final_no_tools : Bool
deriving DecidableEq

/-- `music_agent(messages, user_id)` (app/agents/music.py): up to 5
tool-bound model invocations; if the 5th still requests tools, its tool
results are appended and one final invocation is made on the bare model
(no tools bound).  The system-prompt text is opaque here and passed in. -/
def music_agent (system_prompt : String) (wt plain : List ChatMsg → LMResponse)
    (et : ToolCall → Option String) (messages : List ChatMsg) : AgentOutcome :=
  let full0 := ChatMsg.system system_prompt :: messages
  let r := music_agent_loop wt et 4 full0
  if r.1.tool_calls.isEmpty then ⟨r.1, r.2.1, r.2.2, false⟩
  else ⟨plain r.2.1, r.2.1, r.2.2, true⟩

/-- The graph loop `normal_music_llm → normal_music_tools → normal_music_llm`
of app/graphs/app_graph.py.  Every invocation binds the tools; the loop
leaves for `normal_finalize` only when a response carries no tool calls.
`fuel` bounds the number of LLM invocations we unfold; `none` means the loop
was still running after `fuel` invocations. -/
def normal_music_run (wt : List ChatMsg → LMResponse)
    (et : ToolCall → Option String) :
    Nat → List ChatMsg → Option (List ChatMsg)
  | 0, _ => none
  | Nat.succ n, msgs =>
    let response := wt msgs
    let msgs2 := msgs ++ [aiOfResponse response]
    if response.tool_calls.isEmpty then some msgs2
    else normal_music_run wt et n (msgs2 ++ run_tool_calls et response.tool_calls)

/-! ## Concrete fixtures used by the closed theorems -/

/-- A catalogue track with id 2 (in Chinook, "Balls to the Wall"): relevant
because a bare reply of `"2"` parses as an explicit track id. -/
def track2 : Track := ⟨2, "Balls to the Wall", 99, "Accept", "Balls to the Wall"⟩

def track55 : Track := ⟨55, "Fixture Song 55", 99, "Artist C", "Album C"⟩

def track101 : Track := ⟨101, "Fixture Song 101", 99, "Artist A", "Album A"⟩

def track202 : Track := ⟨202, "Fixture Song 202", 99, "Artist B", "Album B"⟩

/-- A catalogue holding tracks 2, 55, 101 and 202, with no prior purchases. -/
def dbC1 : Catalogue :=
  { fetchTrack := fun id =>
      if id = 2 then some track2
      else if id = 55 then some track55
      else if id = 101 then some track101
      else if id = 202 then some track202
      else none,
    owned := fun _ _ => false,
    searchTracksByTitle := fun _ => [] }

/-- The same catalogue, with user 1 already owning tracks 202 and 55. -/
def dbC8 : Catalogue :=
  { dbC1 with owned := fun u t => u == 1 && (t == 202 || t == 55) }

/-- Cross-turn context holding exactly the candidate ids `[101, 202]`. -/
def stC1 : AppState := { last_track_ids := [101, 202] }

/-- A payment state as `purchase_prepare_payment` leaves it, just before the
charge is executed. -/
def stC2 : AppState :=
  { payment :=
      { status := "confirmed", payment_intent_id := "pi_0001",
        items := [⟨9, "Track 9 — Artist", 1, 99⟩], total := 99,
        transaction_id := "", invoice_id := 0, error := "" } }

/-- The C2 run: successful charge, failing invoice creation, then the
receipt. -/
def C2run : AppState :=
  payment_render_receipt
    (payment_commit_invoice (Except.error "DB connection lost")
      (payment_execute_charge ⟨"succeeded", "txn_abc123", ""⟩ stC2).1)

/-- A classifier that requests a tool call on every invocation. -/
def alwaysToolModel : List ChatMsg → LMResponse :=
  fun _ => ⟨"", [⟨"get_genres", "", "call_1"⟩]⟩

/-- A tool executor that always answers. -/
def okToolExec : ToolCall → Option String := fun _ => some "ok"

/-- A tool-free model giving a fixed final answer. -/
def constDoneModel : List ChatMsg → LMResponse := fun _ => ⟨"done", []⟩

/-- A state in the email flow awaiting the first code, 3 attempts left. -/
def stC6 : AppState :=
  { email_flow :=
      { status := "await_code", current_email := "old@example.com",
        phone := "+15551234567", verification_id := "v1",
        code_attempts_left := some 3, last_code_entered := "",
        proposed_email := "", error := some "" } }

/-- A state in the email flow with an invalid proposed replacement email. -/
def stC7 : AppState :=
  { email_flow :=
      { status := "await_new_email", current_email := "old@example.com",
        phone := "+15551234567", verification_id := "v1",
        code_attempts_left := some 3, last_code_entered := "123456",
        proposed_email := "not-an-email", error := some "" } }

/-- A lyrics-flow state right after playback was offered and shown, where
the identified catalogue track is already owned. -/
def stC9 : AppState :=
  { lyrics_flow :=
      { status := "playing", lyrics_query := "some lyrics",
        genius_best := ⟨"Fixture Song 55", "Artist C"⟩,
        catalogue_track := some track55, already_owned := true,
        youtube := ⟨"vid123", "https://youtu.be/vid123"⟩ } }

/-- A state whose lyrics flow finished last turn. -/
def stC4 : AppState :=
  { lyrics_flow := { status := "done" },
    messages := [ChatMsg.human "thanks, one more thing"] }

/-! # Theorems -/

theorem alookup_aerase {α : Type} (l : List (String × α)) (key : String) :
    alookup (aerase l key) key = none := by
  induction l with
  | nil => rfl
  | cons kv rest ih =>
    obtain ⟨k, v⟩ := kv
    by_cases h : k = key
    · simp [aerase, h, ih]
    · simp [aerase, alookup, h, ih]

/-- The `music_agent` loop makes at most `remaining + 1` tool-bound model
invocations. -/
theorem music_agent_loop_le (wt : List ChatMsg → LMResponse)
    (et : ToolCall → Option String) (k : Nat) (msgs : List ChatMsg) :
    (music_agent_loop wt et k msgs).2.2 ≤ k + 1 := by
  induction k generalizing msgs with
  | zero =>
    unfold music_agent_loop
    by_cases h : (wt msgs).tool_calls.isEmpty <;> simp [h]
  | succ n ih =>
    unfold music_agent_loop
    by_cases h : (wt msgs).tool_calls.isEmpty
    · simp [h]
    · simp only [h, Bool.false_eq_true, if_false]
      have := ih (msgs ++ [aiOfResponse (wt msgs)] ++
        run_tool_calls et (wt msgs).tool_calls)
      omega

/-- C5: calling `PaymentMock.charge` a second time with the same idempotency
key (payment intent id) returns a result identical to the first call's result
and performs no second charge — the cached outcome is returned regardless of
the amount, customer, items, simulated-failure draw and fresh transaction id
passed on the second call. -/
theorem C5_charge_idempotent
    (processed : List (String × ChargeResult)) (intent_id : String)
    (a1 c1 : Int) (i1 : List (String × Int)) (f1 : Bool) (t1 : String)
    (a2 c2 : Int) (i2 : List (String × Int)) (f2 : Bool) (t2 : String) :
    (PaymentMock.charge
        (PaymentMock.charge processed intent_id a1 c1 i1 f1 t1).processed
        intent_id a2 c2 i2 f2 t2).result =
      (PaymentMock.charge processed intent_id a1 c1 i1 f1 t1).result ∧
    (PaymentMock.charge
        (PaymentMock.charge processed intent_id a1 c1 i1 f1 t1).processed
        intent_id a2 c2 i2 f2 t2).processed =
      (PaymentMock.charge processed intent_id a1 c1 i1 f1 t1).processed ∧
    (PaymentMock.charge
        (PaymentMock.charge processed intent_id a1 c1 i1 f1 t1).processed
        intent_id a2 c2 i2 f2 t2).performedCharge = false := by
  cases h : alookup processed intent_id with
  | some r => simp [PaymentMock.charge, h]
  | none => simp [PaymentMock.charge, h, alookup]

/-- Once a verification id is absent from the store, any sequence of
`check_code` calls on it yields only `false`. -/
theorem check_code_seq_all_false
    (st : List (String × MockVerification)) (id : String)
    (h : alookup st id = none) (codes : List String) :
    TwilioService.check_code_seq st id codes = codes.map (fun _ => false) := by
  induction codes with
  | nil => rfl
  | cons c cs ih =>
    unfold TwilioService.check_code_seq
    unfold TwilioService.check_code
    rw [h]
    simpa using ih

/-- C10: in mock mode, a successful `check_code` deletes the verification
record, so every subsequent `check_code` call with the same verification id
returns `false` (and leaves the store unchanged), whatever code — including
the original one — is supplied. -/
theorem C10_check_code_consumed
    (st : List (String × MockVerification)) (id c : String) :
    (TwilioService.check_code st id c).1 = true →
      alookup (TwilioService.check_code st id c).2 id = none ∧
      (∀ (st2 : List (String × MockVerification)) (c2 : String),
        alookup st2 id = none →
        TwilioService.check_code st2 id c2 = (false, st2)) ∧
      ∀ (codes : List String),
        TwilioService.check_code_seq (TwilioService.check_code st id c).2 id
            codes =
          codes.map (fun _ => false) := by
  intro h
  have key : alookup (TwilioService.check_code st id c).2 id = none := by
    cases hl : alookup st id with
    | none => simp [TwilioService.check_code, hl] at h
    | some v =>
      cases hc : v.code with
      | none =>
        simp [TwilioService.check_code, TwilioService.check_code_mock,
          hl, hc] at h
      | some expected =>
        by_cases he : pyStrip c = expected
        · simp [TwilioService.check_code, TwilioService.check_code_mock,
            hl, hc, he, alookup_aerase]
        · simp [TwilioService.check_code, TwilioService.check_code_mock,
            hl, hc, he] at h
  refine ⟨key, ?_, ?_⟩
  · intro st2 c2 h2
    unfold TwilioService.check_code
    rw [h2]
  · intro codes
    exact check_code_seq_all_false _ id key codes

/-- Concrete instance of C10: a stored mock verification checks out once
with the sent code `"123456"` and then can no longer be replayed, not even
with the originally sent code. -/
theorem C10_check_code_consumed_witness :
    (TwilioService.check_code
        [("v1", ⟨"+15551234567", some "123456", "pending"⟩)] "v1" "123456").1
      = true ∧
    TwilioService.check_code
        (TwilioService.check_code
          [("v1", ⟨"+15551234567", some "123456", "pending"⟩)] "v1" "123456").2
        "v1" "123456"
      = (false,
         (TwilioService.check_code
           [("v1", ⟨"+15551234567", some "123456", "pending"⟩)] "v1" "123456").2) ∧
    TwilioService.check_code_seq
        (TwilioService.check_code
          [("v1", ⟨"+15551234567", some "123456", "pending"⟩)] "v1" "123456").2
        "v1" ["123456", "000000"]
      = [false, false] := by
  have h1 : (TwilioService.check_code
      [("v1", ⟨"+15551234567", some "123456", "pending"⟩)] "v1" "123456").1
      = true := by decide
  have h := C10_check_code_consumed
    [("v1", ⟨"+15551234567", some "123456", "pending"⟩)] "v1" "123456" h1
  exact ⟨h1, h.2.1 _ _ h.1, h.2.2 ["123456", "000000"]⟩

/-- C1 fails as stated: with cross-turn context `[101, 202]`, the bare reply
`"2"` is parsed by `purchase_init` as an explicit Track ID (digits-only
messages are track ids), so the resolver selects track 2 — not the second
candidate 202. -/
theorem C1_counterexample :
    (runPurchaseOn dbC1 "2" stC1).1.purchase_flow.selected_track_id = some 2 ∧
    (runPurchaseOn dbC1 "2" stC1).1.purchase_flow.selected_track_id ≠ some 202 ∧
    (runPurchaseOn dbC1 "101" stC1).1.purchase_flow.selected_track_id = some 101 := by
  refine ⟨by decide, by decide, by decide⟩

/-- C1 (amended): with context `[101, 202]`, the reply `"101"` selects track
101 by direct id match; a bare `"2"` is also treated as an explicit track id
(selecting track 2), since digits-only messages never reach positional
selection; 1-based positional selection of 202 happens for a message such as
`"buy 2"`, whose first integer is 2 but which contains no parseable track
id. -/
theorem C1_amended :
    ((runPurchaseOn dbC1 "101" stC1).1.purchase_flow.selected_track_id = some 101 ∧
      (runPurchaseOn dbC1 "101" stC1).2 = PGoto.preparePayment) ∧
    ((runPurchaseOn dbC1 "2" stC1).1.purchase_flow.selected_track_id = some 2 ∧
      (runPurchaseOn dbC1 "2" stC1).2 = PGoto.preparePayment) ∧
    ((runPurchaseOn dbC1 "buy 2" stC1).1.purchase_flow.selected_track_id = some 202 ∧
      (runPurchaseOn dbC1 "buy 2" stC1).2 = PGoto.preparePayment) ∧
    parse_track_id "2" = some 2 ∧
    parse_track_id "buy 2" = none ∧
    parse_first_int "buy 2" = some 2 := by
  refine ⟨⟨by decide, by decide⟩, ⟨by decide, by decide⟩,
    ⟨by decide, by decide⟩, by decide, by decide, by decide⟩

/-- C2 fails as stated: when the invoice creation raises after a successful
charge, the turn's outbox is just the ordinary receipt (with the never-set
`invoice_id` 0) and the generic success text — no message tells the user the
charge succeeded but support should be contacted; the outcome is reported as
an ordinary full success. -/
theorem C2_counterexample :
    (payment_execute_charge ⟨"succeeded", "txn_abc123", ""⟩ stC2).2 =
      PayGoto.commitInvoice ∧
    C2run.payment.status = "succeeded" ∧
    C2run.assistant_messages =
      [OutMsg.invoice 0 "txn_abc123" 99 [⟨"Track 9 — Artist", 1, 99⟩],
       OutMsg.text "Purchase complete! Thank you for your order."] ∧
    C2run.assistant_messages.any mentionsSupport = false := by
  refine ⟨by decide, by decide, by decide, by decide⟩

/-- C2 (amended): when invoice creation fails after a successful charge, the
commit step leaves the state untouched (the failure is only logged
server-side) and the receipt step still reports success — the payment slice
is unchanged and the outbox gains the receipt (carrying whatever
`invoice_id` was already in the slice, 0 by default) plus the generic
success text, with no user-facing message about contacting support. -/
theorem C2_amended (s : AppState) (e : String) :
    payment_commit_invoice (Except.error e) s = s ∧
    (payment_render_receipt s).payment = s.payment ∧
    (payment_render_receipt s).assistant_messages =
      s.assistant_messages ++
        [OutMsg.invoice s.payment.invoice_id s.payment.transaction_id
          s.payment.total
          (s.payment.items.map (fun it => InvoiceLine.mk it.name it.qty it.unit_price)),
         OutMsg.text "Purchase complete! Thank you for your order."] ∧
    ((payment_render_receipt s).assistant_messages.drop
        s.assistant_messages.length).any mentionsSupport = false := by
  refine ⟨?_, ?_, ?_, ?_⟩
  · cases h : s.payment.items <;> simp [payment_commit_invoice, h]
  · simp [payment_render_receipt]
  · simp [payment_render_receipt]
  · simp only [payment_render_receipt, List.drop_left, List.any_cons,
      List.any_nil, mentionsSupport]
    decide

/-- C3 fails as stated: the graph tool-calling loop
`normal_music_llm ↔ normal_music_tools` has no 5-iteration bound — with a
classifier that requests tools forever it is still running after 6
tool-bound model invocations, and no tool-free final step exists on that
path. -/
theorem C3_counterexample :
    normal_music_run alwaysToolModel okToolExec 6 [] = none := by decide

/-- C3 (amended): the standalone `music_agent` helper bounds its loop to at
most 5 tool-bound model invocations and, when tools are still requested
after the bound, makes exactly one final tool-free model call (otherwise its
answer carries no tool calls); the graph loop
`normal_music_llm ↔ normal_music_tools`, by contrast, has no such bound —
under an always-tool-requesting classifier it never leaves the loop, however
many iterations are unfolded. -/
theorem C3_amended :
    (∀ (sp : String) (wt plain : List ChatMsg → LMResponse)
        (et : ToolCall → Option String) (msgs : List ChatMsg),
      (music_agent sp wt plain et msgs).tool_iterations ≤ 5 ∧
      ((music_agent sp wt plain et msgs).final_no_tools = true →
        (music_agent sp wt plain et msgs).response =
          plain (music_agent sp wt plain et msgs).full_messages) ∧
      ((music_agent sp wt plain et msgs).final_no_tools = false →
        (music_agent sp wt plain et msgs).response.tool_calls = [])) ∧
    (∀ (n : Nat) (msgs : List ChatMsg),
      normal_music_run alwaysToolModel okToolExec n msgs = none) := by
  constructor
  · intro sp wt plain et msgs
    refine ⟨?_, ?_, ?_⟩
    · have h := music_agent_loop_le wt et 4 (ChatMsg.system sp :: msgs)
      unfold music_agent
      by_cases hc : (music_agent_loop wt et 4
          (ChatMsg.system sp :: msgs)).1.tool_calls.isEmpty <;>
        simp [hc] <;> omega
    · unfold music_agent
      by_cases hc : (music_agent_loop wt et 4
          (ChatMsg.system sp :: msgs)).1.tool_calls.isEmpty <;> simp [hc]
    · unfold music_agent
      by_cases hc : (music_agent_loop wt et 4
          (ChatMsg.system sp :: msgs)).1.tool_calls.isEmpty <;> simp [hc]
      exact List.isEmpty_iff.mp hc
  · intro n
    induction n with
    | zero => intro msgs; rfl
    | succ k ih =>
      intro msgs
      unfold normal_music_run
      simp only [alwaysToolModel]
      exact ih _

/-- Applying the C3 amended statement at a concrete run: an
always-tool-requesting classifier drives `music_agent` to its 5-invocation
bound and the answer is the tool-free model's, while the graph loop is still
running after 7 unfolded iterations. -/
theorem C3_amended_witness :
    (music_agent "sys" alwaysToolModel constDoneModel okToolExec []).tool_iterations ≤ 5 ∧
    (music_agent "sys" alwaysToolModel constDoneModel okToolExec []).response =
      constDoneModel
        (music_agent "sys" alwaysToolModel constDoneModel okToolExec []).full_messages ∧
    normal_music_run alwaysToolModel okToolExec 7 [] = none := by
  have h := C3_amended.1 "sys" alwaysToolModel constDoneModel okToolExec []
  exact ⟨h.1, h.2.1 (by decide), C3_amended.2 7 []⟩

/-- C4 fails as stated: a lyrics flow that reached the terminal status
`done` is not reset by ingesting the next user message — its slice is left
unchanged rather than being returned to the idle default. -/
theorem C4_counterexample :
    (ingest_user_message stC4).lyrics_flow.status = "done" ∧
    (ingest_user_message stC4).lyrics_flow ≠ get_default_lyrics_flow ∧
    get_default_lyrics_flow.status = "idle" := by
  refine ⟨by decide, by decide, by decide⟩

/-- C4 (amended): `ingest_user_message` clears the outbox and, only for the
email and purchase slices, resets a slice whose status is terminal
(`done`/`cancelled`/`failed`) — and to an empty record (all fields at their
missing-key defaults) rather than to the idle default; the lyrics and
payment slices are never reset by ingestion. -/
theorem C4_amended (s : AppState) :
    (ingest_user_message s).lyrics_flow = s.lyrics_flow ∧
    (ingest_user_message s).payment = s.payment ∧
    (ingest_user_message s).assistant_messages = [] ∧
    (ingest_user_message s).last_user_msg = (lastHuman s.messages).getD "" ∧
    (ingest_user_message s).email_flow =
      (if isTerminalStatus s.email_flow.status then {} else s.email_flow) ∧
    (ingest_user_message s).purchase_flow =
      (if isTerminalStatus s.purchase_flow.status then {}
       else s.purchase_flow) := by
  by_cases h1 : isTerminalStatus s.email_flow.status <;>
    by_cases h2 : isTerminalStatus s.purchase_flow.status <;>
      simp [ingest_user_message, h1, h2]

/-- C6: starting with 3 code attempts remaining, each incorrect code
decrements the counter and re-suspends for another code while attempts
remain; the third consecutive incorrect code routes to the failure node —
never to a further code prompt — and the flow status becomes `failed`. -/
theorem C6_three_wrong_codes (s : AppState) (c1 c2 c3 : String)
    (h : s.email_flow.code_attempts_left = some 3) :
    (email_check_code false (email_interrupt_enter_code c1 s).1).2 =
      EGoto.interruptEnterCode ∧
    (email_check_code false
        (email_interrupt_enter_code c1 s).1).1.email_flow.code_attempts_left =
      some 2 ∧
    (email_check_code false (email_interrupt_enter_code c2
        (email_check_code false
          (email_interrupt_enter_code c1 s).1).1).1).2 =
      EGoto.interruptEnterCode ∧
    (email_check_code false (email_interrupt_enter_code c2
        (email_check_code false
          (email_interrupt_enter_code c1 s).1).1).1).1.email_flow.code_attempts_left =
      some 1 ∧
    (email_check_code false (email_interrupt_enter_code c3
        (email_check_code false (email_interrupt_enter_code c2
          (email_check_code false
            (email_interrupt_enter_code c1 s).1).1).1).1).1).2 =
      EGoto.failedNode ∧
    (email_failed
        (email_check_code false (email_interrupt_enter_code c3
          (email_check_code false (email_interrupt_enter_code c2
            (email_check_code false
              (email_interrupt_enter_code c1 s).1).1).1).1).1).1).email_flow.status =
      "failed" := by
  simp [email_check_code, email_interrupt_enter_code, email_failed, h]

/-- Concrete instance of C6: three wrong codes from a fresh 3-attempt state
end with the flow failed and no further prompt. -/
theorem C6_three_wrong_codes_witness :
    (email_check_code false (email_interrupt_enter_code "000000"
        (email_check_code false (email_interrupt_enter_code "111111"
          (email_check_code false
            (email_interrupt_enter_code "222222" stC6).1).1).1).1).1).2 =
      EGoto.failedNode ∧
    (email_failed
        (email_check_code false (email_interrupt_enter_code "000000"
          (email_check_code false (email_interrupt_enter_code "111111"
            (email_check_code false
              (email_interrupt_enter_code "222222" stC6).1).1).1).1).1).1).email_flow.status =
      "failed" := by
  have h := C6_three_wrong_codes stC6 "222222" "111111" "000000" rfl
  exact ⟨h.2.2.2.2.1, h.2.2.2.2.2⟩

/-- C7: every proposed replacement email is validated against the regex
`local-part @ domain . alphabetic-suffix` before the database commit: the
database write only happens for strings passing the validation, and a
failing string re-issues the same new-email suspension leaving the email
flow slice — its status and the code-attempts counter included — unchanged
and the flow not failed. -/
theorem C7_invalid_email_reprompts (s : AppState)
    (db_update : Except String Unit) :
    (email_matches s.email_flow.proposed_email = false →
      email_update_db db_update s =
        ({ s with assistant_messages :=
            addText s (invalid_email_msg s.email_flow.proposed_email) },
         EGoto.interruptNewEmail, false)) ∧
    ((email_update_db db_update s).2.2 = true →
      email_matches s.email_flow.proposed_email = true) := by
  constructor
  · intro hm
    simp [email_update_db, hm]
  · intro hd
    by_contra hm
    simp only [Bool.not_eq_true] at hm
    simp [email_update_db, hm] at hd

/-- Concrete instance of C7: the invalid value `"not-an-email"` re-issues
the new-email suspension, leaves the slice unchanged, and performs no
database write — while `"person@example.com"` passes the validation. -/
theorem C7_invalid_email_reprompts_witness :
    email_matches "not-an-email" = false ∧
    (email_update_db (Except.ok ()) stC7).2.1 = EGoto.interruptNewEmail ∧
    (email_update_db (Except.ok ()) stC7).1.email_flow = stC7.email_flow ∧
    (email_update_db (Except.ok ()) stC7).2.2 = false ∧
    email_matches "person@example.com" = true := by
  have hm : email_matches stC7.email_flow.proposed_email = false := by decide
  have h := (C7_invalid_email_reprompts stC7 (Except.ok ())).1 hm
  refine ⟨by decide, ?_, ?_, ?_, by decide⟩
  · rw [h]
  · rw [h]
  · rw [h]

/-- C8: the purchase flow's 1-based positional selection resolves a
candidate track without consulting the ownership check and proceeds into
the payment sub-flow even though the user already owns the track, while the
explicit-id resolution point (e.g. a user who owns track 55 asking to buy
track 55) does short-circuit to done with an "already own" message and
enters no payment. -/
theorem C8_positional_skips_ownership :
    dbC8.owned 1 202 = true ∧
    (runPurchaseOn dbC8 "buy 2" stC1).2 = PGoto.preparePayment ∧
    (runPurchaseOn dbC8 "buy 2" stC1).1.purchase_flow.selected_track_id =
      some 202 ∧
    (purchase_prepare_payment dbC8 (runPurchaseOn dbC8 "buy 2" stC1).1).2 =
      PGoto.paymentFlow ∧
    (runPurchaseOn dbC8 "55" { user_id := 1 }).2 = PGoto.done ∧
    (runPurchaseOn dbC8 "55" { user_id := 1 }).1.assistant_messages =
      [OutMsg.text (already_own_msg track55)] ∧
    (purchase_done
        (runPurchaseOn dbC8 "55" { user_id := 1 }).1).purchase_flow.status =
      "done" := by
  refine ⟨by decide, by decide, by decide, by decide, by decide, by decide,
    by decide⟩

/-- C9: after playback is offered and shown, an already-owned catalogue
track ends the flow at status `done` with only the player embed and a
closing message appended (no purchase or request offer); the purchase offer
is made exactly when the track is in the catalogue and not owned, and the
catalogue-request offer exactly when it is not in the catalogue. -/
theorem C9_render_offer_routing (s : AppState) :
    (s.lyrics_flow.already_owned = true →
      (lyrics_render_player_and_offer s).2 = LGoto.doneNode ∧
      (lyrics_render_player_and_offer s).1.lyrics_flow.status = "done" ∧
      (lyrics_render_player_and_offer s).1.assistant_messages =
        s.assistant_messages ++
          [OutMsg.embed "youtube" s.lyrics_flow.youtube.video_id
            s.lyrics_flow.youtube.url
            (get_embed_html s.lyrics_flow.youtube.video_id true),
           OutMsg.text "Enjoy your music! Let me know if you need anything else."]) ∧
    ((lyrics_render_player_and_offer s).2 = LGoto.buyConfirm ↔
      s.lyrics_flow.already_owned = false ∧
      s.lyrics_flow.catalogue_track.isSome = true) ∧
    ((lyrics_render_player_and_offer s).2 = LGoto.requestConfirm ↔
      s.lyrics_flow.already_owned = false ∧
      s.lyrics_flow.catalogue_track = none) := by
  cases ho : s.lyrics_flow.already_owned <;>
    cases hc : s.lyrics_flow.catalogue_track <;>
      simp [lyrics_render_player_and_offer, ho, hc]

/-- Concrete instance of C9: an owned identified track yields status `done`,
just the player and the closing text, and neither offer route. -/
theorem C9_render_offer_routing_witness :
    (lyrics_render_player_and_offer stC9).2 = LGoto.doneNode ∧
    (lyrics_render_player_and_offer stC9).1.lyrics_flow.status = "done" ∧
    (lyrics_render_player_and_offer stC9).1.assistant_messages =
      stC9.assistant_messages ++
        [OutMsg.embed "youtube" stC9.lyrics_flow.youtube.video_id
          stC9.lyrics_flow.youtube.url
          (get_embed_html stC9.lyrics_flow.youtube.video_id true),
         OutMsg.text "Enjoy your music! Let me know if you need anything else."] := by
  have h := (C9_render_offer_routing stC9).1 (by decide)
  exact h

end MusicStore
